import Mathlib

/-!
Verification of the Cadence workflow-replication core against its
natural-language specification.

The development shallowly embeds four parts of the repository:

* the `SyncActivity` passive-replication decision procedure of the
  activity replicator (service/history/ndc), modelled from the spec and
  pinned down by the repository's activity-replicator test suite;
* the shard fixer `Fix` loop (service/worker/scanner/shardscanner),
  modelled from the spec and pinned down by `fixer_test.go`;
* the history scavenger (`getHistoryCleanupThreshold`, page
  classification and the per-task processor), embedded from source;
* `taskListDB.UpdateState` (service/matching/tasklist), embedded from
  source.
-/

/-! ## Version histories -/

/-- An endpoint of a version history: the last event id produced under
`version`. -/
structure VersionHistoryItem where
  eventID : Int
  version : Int
deriving DecidableEq, Repr

/-- Walk two version histories backwards (highest endpoints first) to find
the lowest common ancestor endpoint: the first pair of endpoints sharing a
version, taking the smaller event id of the two.  The lists are given in
reversed (tip-first) order; the fuel bounds the number of steps (each step
discards one endpoint, so the sum of the lengths suffices). -/
def findLCAAux : Nat → List VersionHistoryItem → List VersionHistoryItem → Option VersionHistoryItem
  | n + 1, l :: ls, r :: rs =>
    if l.version = r.version then
      if l.eventID > r.eventID then some r else some l
    else if l.version > r.version then
      findLCAAux n ls (r :: rs)
    else
      findLCAAux n (l :: ls) rs
  | _, _, _ => none

/-- Lowest common ancestor endpoint of a local and an incoming version
history, both given in ascending order as stored. -/
def findLCAItem (localItems remoteItems : List VersionHistoryItem) : Option VersionHistoryItem :=
  findLCAAux (localItems.length + remoteItems.length) localItems.reverse remoteItems.reverse

/-- The LCA is appendable to a branch exactly when it is the branch's last
(tip) endpoint. -/
def isLCAAppendable (items : List VersionHistoryItem) (item : VersionHistoryItem) : Bool :=
  items.getLast? = some item

/-! ## SyncActivity data model -/

/-- Fields of a `SyncActivityRequest` relevant to the decision procedure.
All timestamps are nanoseconds. -/
structure SyncActivityRequest where
  version : Int
  scheduledID : Int
  attempt : Int
  scheduledTime : Int
  startedTime : Int
  lastHeartbeatTime : Int
  versionHistory : List VersionHistoryItem
deriving DecidableEq, Repr

/-- The pending-activity record kept in mutable state. -/
structure ActivityInfo where
  version : Int
  attempt : Int
  lastHeartbeatTime : Int
deriving DecidableEq, Repr

/-- Workflow state tags as persisted (Created, Running, Completed, Zombie). -/
def workflowStateZombie : Nat := 3

/-- Close status `None`: the run is not closed. -/
def workflowCloseStatusNone : Nat := 0

/-- The slice of local mutable state consulted by `SyncActivity`.
`versionHistories` is the current branch when version histories exist
(`none` on the legacy 2-DC path); `activities` maps schedule ids to
pending activity records. -/
structure LocalSyncState where
  state : Nat
  closeStatus : Nat
  nextEventID : Int
  lastWriteVersion : Int
  versionHistories : Option (List VersionHistoryItem)
  activities : List (Int × ActivityInfo)
deriving Repr

/-- Look up the pending activity record at a schedule id. -/
def getActivityInfo (st : LocalSyncState) (scheduleID : Int) : Option ActivityInfo :=
  (st.activities.find? (fun p => p.1 = scheduleID)).map Prod.snd

/-- Persistence write modes used by the passive close. -/
inductive UpdateWorkflowMode where
  | updateCurrent
  | bypassCurrent
deriving DecidableEq, Repr

/-- Error message attached to the retry hint when the remote is on a
higher-version branch. -/
def resendHigherVersionMessage : String :=
  "Resend events due to a higher version received"

/-- Error message attached to the retry hint when the local branch is
missing events up to the schedule id. -/
def resendMissingEventMessage : String :=
  "Resend missing sync activity events"

/-- Result of a `SyncActivity` call.  `noopSuccess` is success with no
persistence write and no mutation; `retryTaskV2` carries the resend hint
coordinates; `applied` records an accepted update: the replacement
activity record, whether the retry-timer mask is reset, the reference time
of the pushed retry timer task (derived from the remote timestamps), and
the write mode of the passive-policy close. -/
inductive SyncOutcome where
  | noopSuccess
  | retryTaskV2 (startEventID : Int) (startEventVersion : Int) (msg : String)
  | badRequest
  | applied (newInfo : ActivityInfo) (refreshTask : Bool) (timerRefTime : Int)
      (mode : UpdateWorkflowMode)
deriving DecidableEq, Repr

/-- Intermediate verdict of the version-history comparison. -/
inductive ShouldApplyVerdict where
  | contOn
  | noop
  | retry (startEventID : Int) (startEventVersion : Int) (msg : String)
  | malformed
deriving DecidableEq, Repr

/-- Modelled from the spec: the version-history comparison step of
`SyncActivity` (the activity replicator implementation is absent from the
sources; only its test suite is present).  With version histories, the
local current branch and the incoming history are compared through their
LCA: if the LCA is the local tip the incoming history extends the local
branch, and a schedule id beyond the tip means events are missing
(resend from the tip); if the branches diverged, a lower incoming tip
version means the incoming history is dominated by the local one and the
task is discarded, otherwise the remote must resend from the LCA forward.
Without version histories (legacy 2-DC), the incoming version is compared
to the local last write version and only equality proceeds.  Matches the
repository's activity-replicator tests at every tested point. -/
def shouldApplySyncActivity (st : LocalSyncState) (req : SyncActivityRequest) :
    ShouldApplyVerdict :=
  match st.versionHistories with
  | some localItems =>
    match findLCAItem localItems req.versionHistory with
    | none => .malformed
    | some lca =>
      if isLCAAppendable localItems lca then
        if req.scheduledID > lca.eventID then
          .retry lca.eventID lca.version resendMissingEventMessage
        else
          .contOn
      else
        match localItems.getLast?, req.versionHistory.getLast? with
        | some localTip, some incomingTip =>
          if incomingTip.version < localTip.version then
            .noop
          else
            .retry lca.eventID lca.version resendHigherVersionMessage
        | _, _ => .malformed
  | none =>
    if req.version < st.lastWriteVersion then .noop
    else if req.version > st.lastWriteVersion then .noop
    else .contOn

/-- The `(version, attempt)` newness comparator: the incoming pair is
strictly older than the local pair. -/
def incomingStale (req : SyncActivityRequest) (ai : ActivityInfo) : Bool :=
  ai.version > req.version || (ai.version = req.version && ai.attempt > req.attempt)

/-- Whether the activity retry-timer mask is reset on an accepted update:
the version changed or the attempt counter advanced. -/
def refreshTimerMask (req : SyncActivityRequest) (ai : ActivityInfo) : Bool :=
  !(req.version = ai.version) || ai.attempt < req.attempt

/-- Reference time of the retry timer task pushed by an accepted update:
the latest of the remote scheduled / started / heartbeat timestamps. -/
def syncActivityEventTime (req : SyncActivityRequest) : Int :=
  max (max req.scheduledTime req.startedTime) req.lastHeartbeatTime

/-- Modelled from the spec: the `SyncActivity` decision procedure of the
activity replicator (implementation absent from the sources; only its test
suite is present).  `none` for the first argument is a workflow that does
not exist locally.  A closed workflow is a no-op.  Otherwise the version
histories are compared; if the update may apply, the pending activity at
the schedule id is looked up (absent means already completed locally:
no-op), staleness is tested with the `(version, attempt)` comparator, and
an accepted update replaces the activity record, pushes a retry timer task
and persists via a passive close whose mode bypasses the current run
exactly when the workflow is a Zombie.  Matches the repository's
activity-replicator tests at every tested point. -/
def syncActivity (wf : Option LocalSyncState) (req : SyncActivityRequest) : SyncOutcome :=
  match wf with
  | none => .noopSuccess
  | some st =>
    if st.closeStatus ≠ workflowCloseStatusNone then .noopSuccess
    else
      match shouldApplySyncActivity st req with
      | .noop => .noopSuccess
      | .retry e v m => .retryTaskV2 e v m
      | .malformed => .badRequest
      | .contOn =>
        match getActivityInfo st req.scheduledID with
        | none => .noopSuccess
        | some ai =>
          if incomingStale req ai then .noopSuccess
          else
            .applied
              { version := req.version, attempt := req.attempt,
                lastHeartbeatTime := req.lastHeartbeatTime }
              (refreshTimerMask req ai)
              (syncActivityEventTime req)
              (if st.state = workflowStateZombie then .bypassCurrent else .updateCurrent)

/-! ## SyncActivity: claim theorems -/

/-- Reusable lemma: once the version-history comparison lets the update
through and a pending activity exists, `syncActivity` either no-ops on a
stale incoming pair or applies the replacement. -/
theorem syncActivity_lookup_cases (st : LocalSyncState) (req : SyncActivityRequest)
    (ai : ActivityInfo)
    (hclose : st.closeStatus = workflowCloseStatusNone)
    (happly : shouldApplySyncActivity st req = .contOn)
    (hai : getActivityInfo st req.scheduledID = some ai) :
    syncActivity (some st) req =
      (if incomingStale req ai then .noopSuccess
       else
        .applied
          { version := req.version, attempt := req.attempt,
            lastHeartbeatTime := req.lastHeartbeatTime }
          (refreshTimerMask req ai)
          (syncActivityEventTime req)
          (if st.state = workflowStateZombie then .bypassCurrent else .updateCurrent)) := by
  simp [syncActivity, hclose, happly, hai]

/-- C1 as written fails at equality: the activity-replicator test for an
incoming update with the same version and the same attempt expects the
update to be applied (`ReplicateActivityInfo` is called), not a no-op. -/
theorem c1_equal_pair_applies_counterexample :
    let ai : ActivityInfo := { version := 100, attempt := 0, lastHeartbeatTime := 0 }
    let st : LocalSyncState :=
      { state := 1, closeStatus := 0, nextEventID := 154, lastWriteVersion := 100,
        versionHistories := some [{ eventID := 144, version := 100 }],
        activities := [(144, ai)] }
    let req : SyncActivityRequest :=
      { version := 100, scheduledID := 144, attempt := 0, scheduledTime := 10,
        startedTime := 20, lastHeartbeatTime := 30,
        versionHistory := [{ eventID := 144, version := 100 }] }
    getActivityInfo st 144 = some ai ∧
      req.version = ai.version ∧ req.attempt = ai.attempt ∧
      syncActivity (some st) req ≠ SyncOutcome.noopSuccess := by
  refine ⟨by decide, by decide, by decide, by decide⟩

/-- C1 (amended): at the activity lookup with a pending record present, an
incoming `(version, attempt)` pair strictly below the local pair
(lexicographically) is a no-op success, and a pair greater than or equal
to the local pair is accepted and applied to the local record. -/
theorem c1_sync_activity_newness_comparison (st : LocalSyncState)
    (req : SyncActivityRequest) (ai : ActivityInfo)
    (hclose : st.closeStatus = workflowCloseStatusNone)
    (happly : shouldApplySyncActivity st req = .contOn)
    (hai : getActivityInfo st req.scheduledID = some ai) :
    ((req.version < ai.version ∨ (req.version = ai.version ∧ req.attempt < ai.attempt)) →
        syncActivity (some st) req = .noopSuccess) ∧
      ((ai.version < req.version ∨ (ai.version = req.version ∧ ai.attempt ≤ req.attempt)) →
        syncActivity (some st) req =
          .applied
            { version := req.version, attempt := req.attempt,
              lastHeartbeatTime := req.lastHeartbeatTime }
            (refreshTimerMask req ai)
            (syncActivityEventTime req)
            (if st.state = workflowStateZombie then .bypassCurrent
             else .updateCurrent)) := by
  have hcases := syncActivity_lookup_cases st req ai hclose happly hai
  constructor
  · intro h
    have hstale : incomingStale req ai = true := by
      simp only [incomingStale, Bool.or_eq_true, decide_eq_true_eq, Bool.and_eq_true]
      omega
    rw [hcases, if_pos hstale]
  · intro h
    have hstale : ¬ incomingStale req ai = true := by
      simp only [incomingStale, Bool.or_eq_true, decide_eq_true_eq, Bool.and_eq_true]
      omega
    rw [hcases, if_neg hstale]

/-- Witness for the amended C1 at a concrete input on both sides of the
comparator. -/
theorem c1_sync_activity_newness_comparison_witness :
    (syncActivity
        (some { state := 1, closeStatus := 0, nextEventID := 154, lastWriteVersion := 100,
                versionHistories := some [{ eventID := 144, version := 100 }],
                activities := [(144, { version := 109, attempt := 0, lastHeartbeatTime := 0 })] })
        { version := 100, scheduledID := 144, attempt := 0, scheduledTime := 0,
          startedTime := 0, lastHeartbeatTime := 0,
          versionHistory := [{ eventID := 144, version := 100 }] } = .noopSuccess) ∧
      (syncActivity
        (some { state := 1, closeStatus := 0, nextEventID := 154, lastWriteVersion := 100,
                versionHistories := some [{ eventID := 144, version := 100 }],
                activities := [(144, { version := 100, attempt := 99, lastHeartbeatTime := 0 })] })
        { version := 100, scheduledID := 144, attempt := 100, scheduledTime := 10,
          startedTime := 20, lastHeartbeatTime := 30,
          versionHistory := [{ eventID := 144, version := 100 }] } =
        .applied { version := 100, attempt := 100, lastHeartbeatTime := 30 } true 30
          .updateCurrent) := by
  constructor
  · exact (c1_sync_activity_newness_comparison _ _
      { version := 109, attempt := 0, lastHeartbeatTime := 0 }
      (by decide) (by decide) (by decide)).1 (by decide)
  · exact (c1_sync_activity_newness_comparison _ _
      { version := 100, attempt := 99, lastHeartbeatTime := 0 }
      (by decide) (by decide) (by decide)).2 (by decide)

/-- C2: an accepted update replaces the local activity record with the
request's fields, pushes a retry timer task whose reference time is the
latest remote timestamp, and persists via a passive close whose write mode
is `bypassCurrent` exactly when the workflow state is Zombie and
`updateCurrent` otherwise. -/
theorem c2_accepted_update_effects (st : LocalSyncState) (req : SyncActivityRequest)
    (ai : ActivityInfo)
    (hclose : st.closeStatus = workflowCloseStatusNone)
    (happly : shouldApplySyncActivity st req = .contOn)
    (hai : getActivityInfo st req.scheduledID = some ai)
    (hfresh : incomingStale req ai = false) :
    syncActivity (some st) req =
      .applied
        { version := req.version, attempt := req.attempt,
          lastHeartbeatTime := req.lastHeartbeatTime }
        (refreshTimerMask req ai)
        (max (max req.scheduledTime req.startedTime) req.lastHeartbeatTime)
        (if st.state = workflowStateZombie then .bypassCurrent else .updateCurrent) := by
  have hcases := syncActivity_lookup_cases st req ai hclose happly hai
  rw [hcases, if_neg (by simp [hfresh])]
  rfl

/-- Witness for C2 at a concrete input, once with a running workflow
(update-current mode) and once with a Zombie (bypass-current mode). -/
theorem c2_accepted_update_effects_witness :
    (syncActivity
        (some { state := 1, closeStatus := 0, nextEventID := 154, lastWriteVersion := 100,
                versionHistories := some [{ eventID := 144, version := 100 }],
                activities := [(144, { version := 99, attempt := 101, lastHeartbeatTime := 0 })] })
        { version := 100, scheduledID := 144, attempt := 100, scheduledTime := 10,
          startedTime := 20, lastHeartbeatTime := 30,
          versionHistory := [{ eventID := 144, version := 100 }] } =
      .applied { version := 100, attempt := 100, lastHeartbeatTime := 30 } true 30
        .updateCurrent) ∧
      (syncActivity
        (some { state := 3, closeStatus := 0, nextEventID := 154, lastWriteVersion := 100,
                versionHistories := some [{ eventID := 144, version := 100 }],
                activities := [(144, { version := 99, attempt := 101, lastHeartbeatTime := 0 })] })
        { version := 100, scheduledID := 144, attempt := 100, scheduledTime := 10,
          startedTime := 20, lastHeartbeatTime := 30,
          versionHistory := [{ eventID := 144, version := 100 }] } =
      .applied { version := 100, attempt := 100, lastHeartbeatTime := 30 } true 30
        .bypassCurrent) := by
  constructor
  · exact c2_accepted_update_effects _ _
      { version := 99, attempt := 101, lastHeartbeatTime := 0 }
      (by decide) (by decide) (by decide) (by decide)
  · exact c2_accepted_update_effects _ _
      { version := 99, attempt := 101, lastHeartbeatTime := 0 }
      (by decide) (by decide) (by decide) (by decide)

/-- C3 as written fails: in the repository's discard test the histories
share the prefix `[(143,98)]` and the incoming tip version `99` exceeds
the local version at the LCA (`98`), yet `SyncActivity` discards the task
and returns success instead of a RetryTaskV2 error.  The comparison that
decides between discard and retry is against the local branch's tip
version (`100`), not the version at the LCA. -/
theorem c3_lca_version_counterexample :
    let localItems : List VersionHistoryItem :=
      [{ eventID := 143, version := 98 }, { eventID := 145, version := 100 }]
    let st : LocalSyncState :=
      { state := 1, closeStatus := 0, nextEventID := 146, lastWriteVersion := 100,
        versionHistories := some localItems, activities := [] }
    let req : SyncActivityRequest :=
      { version := 99, scheduledID := 144, attempt := 0, scheduledTime := 0,
        startedTime := 0, lastHeartbeatTime := 0,
        versionHistory := [{ eventID := 143, version := 98 }, { eventID := 144, version := 99 }] }
    findLCAItem localItems req.versionHistory = some { eventID := 143, version := 98 } ∧
      (99 : Int) > 98 ∧
      syncActivity (some st) req = .noopSuccess := by
  refine ⟨by decide, by decide, by decide⟩

/-- C3 (amended): when the local and incoming histories diverge (the LCA
is not the local branch's tip) and the incoming tip version exceeds the
local branch's tip version, `SyncActivity` returns a RetryTaskV2 error
whose start coordinates are the LCA's. -/
theorem c3_cross_branch_retry (st : LocalSyncState) (req : SyncActivityRequest)
    (localItems : List VersionHistoryItem) (lca localTip incomingTip : VersionHistoryItem)
    (hclose : st.closeStatus = workflowCloseStatusNone)
    (hvh : st.versionHistories = some localItems)
    (hlca : findLCAItem localItems req.versionHistory = some lca)
    (hdiv : isLCAAppendable localItems lca = false)
    (hlocTip : localItems.getLast? = some localTip)
    (hincTip : req.versionHistory.getLast? = some incomingTip)
    (hver : incomingTip.version > localTip.version) :
    syncActivity (some st) req =
      .retryTaskV2 lca.eventID lca.version resendHigherVersionMessage := by
  have happly : shouldApplySyncActivity st req =
      .retry lca.eventID lca.version resendHigherVersionMessage := by
    rw [shouldApplySyncActivity, hvh]
    simp only [hlca, hdiv, hlocTip, hincTip, Bool.false_eq_true, if_false]
    rw [if_neg (by omega)]
  simp [syncActivity, hclose, happly]

/-- Witness for the amended C3: the cross-branch conflict scenario of the
spec (local `[(100,2)]`, incoming `[(50,2),(144,100)]`) yields
`RetryTaskV2{startEventID=50,startEventVersion=2}`. -/
theorem c3_cross_branch_retry_witness :
    syncActivity
        (some { state := 1, closeStatus := 0, nextEventID := 101, lastWriteVersion := 2,
                versionHistories := some [{ eventID := 100, version := 2 }],
                activities := [] })
        { version := 100, scheduledID := 144, attempt := 0, scheduledTime := 0,
          startedTime := 0, lastHeartbeatTime := 0,
          versionHistory := [{ eventID := 50, version := 2 }, { eventID := 144, version := 100 }] } =
      .retryTaskV2 50 2 resendHigherVersionMessage := by
  exact c3_cross_branch_retry _ _ [{ eventID := 100, version := 2 }]
    { eventID := 50, version := 2 } { eventID := 100, version := 2 }
    { eventID := 144, version := 100 }
    (by decide) (by decide) (by decide) (by decide) (by decide) (by decide) (by decide)

/-- C4: on the versioned path, when the incoming history extends the local
current branch (the LCA is the local tip), the next-event id invariant
holds (`nextEventID` = tip event id + 1), and the incoming schedule id
exceeds `nextEventID`, `SyncActivity` returns a RetryTaskV2 error whose
start coordinates are the local branch's tip. -/
theorem c4_missing_events_retry (st : LocalSyncState) (req : SyncActivityRequest)
    (localItems : List VersionHistoryItem) (lca : VersionHistoryItem)
    (hclose : st.closeStatus = workflowCloseStatusNone)
    (hvh : st.versionHistories = some localItems)
    (hlca : findLCAItem localItems req.versionHistory = some lca)
    (happend : isLCAAppendable localItems lca = true)
    (hnext : st.nextEventID = lca.eventID + 1)
    (hsched : req.scheduledID > st.nextEventID) :
    syncActivity (some st) req =
      .retryTaskV2 lca.eventID lca.version resendMissingEventMessage := by
  have happly : shouldApplySyncActivity st req =
      .retry lca.eventID lca.version resendMissingEventMessage := by
    rw [shouldApplySyncActivity, hvh]
    simp only [hlca, happend, if_true]
    rw [if_pos (by omega)]
  simp [syncActivity, hclose, happly]

/-- Witness for C4: the spec's scenario — local tip `(130,100)` with
`nextEventID = 131`, incoming tip `(144,100)` with `scheduledID = 144` —
yields `RetryTaskV2{startEventID=130,startEventVersion=100}`. -/
theorem c4_missing_events_retry_witness :
    syncActivity
        (some { state := 1, closeStatus := 0, nextEventID := 131, lastWriteVersion := 100,
                versionHistories := some [{ eventID := 130, version := 100 }],
                activities := [] })
        { version := 100, scheduledID := 144, attempt := 0, scheduledTime := 0,
          startedTime := 0, lastHeartbeatTime := 0,
          versionHistory := [{ eventID := 144, version := 100 }] } =
      .retryTaskV2 130 100 resendMissingEventMessage := by
  exact c4_missing_events_retry _ _ [{ eventID := 130, version := 100 }]
    { eventID := 130, version := 100 }
    (by decide) (by decide) (by decide) (by decide) (by decide) (by decide)

/-- C5: an incoming history dominated by the local one — the branches
diverge (the LCA is not the local tip) and the incoming tip version is
strictly below the local tip version — is discarded: `SyncActivity`
returns `noopSuccess`, the outcome that performs no persistence write and
no mutation of local state. -/
theorem c5_dominated_discard (st : LocalSyncState) (req : SyncActivityRequest)
    (localItems : List VersionHistoryItem) (lca localTip incomingTip : VersionHistoryItem)
    (hclose : st.closeStatus = workflowCloseStatusNone)
    (hvh : st.versionHistories = some localItems)
    (hlca : findLCAItem localItems req.versionHistory = some lca)
    (hdiv : isLCAAppendable localItems lca = false)
    (hlocTip : localItems.getLast? = some localTip)
    (hincTip : req.versionHistory.getLast? = some incomingTip)
    (hver : incomingTip.version < localTip.version) :
    syncActivity (some st) req = .noopSuccess := by
  have happly : shouldApplySyncActivity st req = .noop := by
    rw [shouldApplySyncActivity, hvh]
    simp only [hlca, hdiv, hlocTip, hincTip, Bool.false_eq_true, if_false]
    rw [if_pos hver]
  simp [syncActivity, hclose, happly]

/-- Witness for C5: the repository's discard test — local branch
`[(143,98),(145,100)]`, incoming `[(143,98),(144,99)]` — returns success
with no write. -/
theorem c5_dominated_discard_witness :
    syncActivity
        (some { state := 1, closeStatus := 0, nextEventID := 146, lastWriteVersion := 100,
                versionHistories :=
                  some [{ eventID := 143, version := 98 }, { eventID := 145, version := 100 }],
                activities := [] })
        { version := 99, scheduledID := 144, attempt := 0, scheduledTime := 0,
          startedTime := 0, lastHeartbeatTime := 0,
          versionHistory :=
            [{ eventID := 143, version := 98 }, { eventID := 144, version := 99 }] } =
      .noopSuccess := by
  exact c5_dominated_discard _ _
    [{ eventID := 143, version := 98 }, { eventID := 145, version := 100 }]
    { eventID := 143, version := 98 } { eventID := 145, version := 100 }
    { eventID := 144, version := 99 }
    (by decide) (by decide) (by decide) (by decide) (by decide) (by decide) (by decide)

/-- C6: a workflow that does not exist locally, and a local run that is
closed (close status different from None), both make `SyncActivity` a
no-op success with no persistence write. -/
theorem c6_not_found_or_closed_noop (st : LocalSyncState) (req : SyncActivityRequest)
    (hclosed : st.closeStatus ≠ workflowCloseStatusNone) :
    syncActivity none req = .noopSuccess ∧
      syncActivity (some st) req = .noopSuccess := by
  refine ⟨rfl, ?_⟩
  simp [syncActivity, hclosed]

/-- Witness for C6 with a completed run (close status 1). -/
theorem c6_not_found_or_closed_noop_witness :
    syncActivity none
        { version := 100, scheduledID := 144, attempt := 0, scheduledTime := 0,
          startedTime := 0, lastHeartbeatTime := 0, versionHistory := [] } = .noopSuccess ∧
      syncActivity
        (some { state := 2, closeStatus := 1, nextEventID := 146, lastWriteVersion := 100,
                versionHistories := some [], activities := [] })
        { version := 100, scheduledID := 144, attempt := 0, scheduledTime := 0,
          startedTime := 0, lastHeartbeatTime := 0, versionHistory := [] } = .noopSuccess := by
  exact c6_not_found_or_closed_noop _ _ (by decide)

/-! ## Shard fixer -/

/-- Aggregated outcome of the invariant pipeline for one entity. -/
inductive FixResultType where
  | fixed
  | skipped
  | failed
deriving DecidableEq, Repr

/-- One scan-output entity as consumed by the fixer, together with the
behaviour of the collaborators on it: the aggregated outcome the invariant
manager returns for it, and whether the add to its output stream fails. -/
structure FixEntityIn where
  domainID : String
  fixResultType : FixResultType
  addErr : Option String
deriving DecidableEq, Repr

/-- One pull from the scan-output iterator: an entity or a read error. -/
inductive IterStep where
  | entity (e : FixEntityIn)
  | iterErr (msg : String)
deriving DecidableEq, Repr

/-- Fixer statistics, kept at shard level and per domain. -/
structure FixStats where
  entitiesCount : Nat
  fixedCount : Nat
  skippedCount : Nat
  failedCount : Nat
deriving DecidableEq, Repr

/-- The all-zero statistics. -/
def FixStats.zero : FixStats := ⟨0, 0, 0, 0⟩

/-- Componentwise addition of statistics. -/
def FixStats.add (a b : FixStats) : FixStats :=
  ⟨a.entitiesCount + b.entitiesCount, a.fixedCount + b.fixedCount,
    a.skippedCount + b.skippedCount, a.failedCount + b.failedCount⟩

/-- The statistics increment recorded when an entity is read. -/
def entityDelta : FixStats := ⟨1, 0, 0, 0⟩

/-- The statistics increment recorded when an entity lands in a bucket. -/
def bucketDelta : FixResultType → FixStats
  | .fixed => ⟨0, 1, 0, 0⟩
  | .skipped => ⟨0, 0, 1, 0⟩
  | .failed => ⟨0, 0, 0, 1⟩

/-- Per-domain statistics, as an association list keyed by domain id. -/
abbrev DomainStats := List (String × FixStats)

/-- Add a statistics increment to one domain's entry (inserting it if
absent). -/
def dsAdd : DomainStats → String → FixStats → DomainStats
  | [], dom, d => [(dom, FixStats.add FixStats.zero d)]
  | (k, s) :: rest, dom, d =>
    if k = dom then (k, FixStats.add s d) :: rest else (k, s) :: dsAdd rest dom d

/-- Componentwise total of per-domain statistics. -/
def sumStats (ds : DomainStats) : FixStats :=
  ds.foldr (fun p acc => FixStats.add p.2 acc) FixStats.zero

/-- A control-flow failure recorded in the shard's fix report. -/
structure ControlFlowFailure where
  info : String
  infoDetails : String
deriving DecidableEq, Repr

/-- Info string recorded when the scan-output iterator read fails. -/
def iterFailInfo : String := "blobstore iterator returned error"

/-- Info string recorded when the add to an output stream fails. -/
def addFailInfo : FixResultType → String
  | .fixed => "blobstore add failed for fixed execution fix"
  | .skipped => "blobstore add failed for skipped execution fix"
  | .failed => "blobstore add failed for failed execution fix"

/-- Info string recorded when the flush of an output stream fails. -/
def flushFailInfo : FixResultType → String
  | .fixed => "failed to flush for fixed execution fixes"
  | .skipped => "failed to flush for skipped execution fixes"
  | .failed => "failed to flush for failed execution fixes"

/-- The output stream an entity lands in: its invariant-pipeline outcome,
except that a domain outside the allowlist is short-circuited to the
skipped stream. -/
def fixBucket (allow : String → Bool) (e : FixEntityIn) : FixResultType :=
  if allow e.domainID then e.fixResultType else .skipped

/-- Modelled from the spec: the entity loop of `ShardFixer.Fix` (the fixer
implementation is absent from the sources; only `fixer_test.go` is
present).  Each successfully read entity bumps the entity counters at
shard and domain level; a disallowed domain goes to the skipped stream,
an allowed one to the stream of its pipeline outcome; the bucket counters
are bumped only after a successful add.  An iterator read error or a
stream add error stops the loop with a control-flow failure, keeping the
statistics accumulated so far.  Matches `fixer_test.go` at every tested
point. -/
def fixLoop (allow : String → Bool) :
    List IterStep → FixStats → DomainStats →
      FixStats × DomainStats × Option ControlFlowFailure
  | [], stats, ds => (stats, ds, none)
  | .iterErr m :: _, stats, ds => (stats, ds, some ⟨iterFailInfo, m⟩)
  | .entity e :: rest, stats, ds =>
    let stats1 := FixStats.add stats entityDelta
    let ds1 := dsAdd ds e.domainID entityDelta
    let b := fixBucket allow e
    match e.addErr with
    | some m => (stats1, ds1, some ⟨addFailInfo b, m⟩)
    | none =>
      fixLoop allow rest (FixStats.add stats1 (bucketDelta b))
        (dsAdd ds1 e.domainID (bucketDelta b))

/-- The keys of the three flushed output streams. -/
structure FixKeys where
  fixed : String
  skipped : String
  failed : String
deriving DecidableEq, Repr

/-- Whether each output stream's final flush fails, and with what error. -/
structure FlushBehavior where
  fixedFlushErr : Option String
  skippedFlushErr : Option String
  failedFlushErr : Option String
deriving DecidableEq, Repr

/-- Result section of a fix report: the flushed keys on success, or the
recorded control-flow failure. -/
structure FixResult where
  shardFixKeys : Option FixKeys
  controlFlowFailure : Option ControlFlowFailure
deriving DecidableEq, Repr

/-- The shard's fix report. -/
structure FixReport where
  shardID : Nat
  stats : FixStats
  result : FixResult
  domainStats : DomainStats
deriving DecidableEq, Repr

/-- Modelled from the spec: `ShardFixer.Fix` (implementation absent from
the sources; only `fixer_test.go` is present).  Runs the entity loop;
on a loop failure the report carries the failure and the partial
statistics.  Otherwise the fixed, skipped and failed streams are flushed
in that order, a flush error is recorded as the control-flow failure, and
on full success the report carries the flushed keys.  Matches
`fixer_test.go` at every tested point. -/
def fixShard (shardID : Nat) (steps : List IterStep) (allow : String → Bool)
    (fl : FlushBehavior) (keys : FixKeys) : FixReport :=
  match fixLoop allow steps FixStats.zero [] with
  | (stats, ds, some cff) => ⟨shardID, stats, ⟨none, some cff⟩, ds⟩
  | (stats, ds, none) =>
    match fl.fixedFlushErr with
    | some m => ⟨shardID, stats, ⟨none, some ⟨flushFailInfo .fixed, m⟩⟩, ds⟩
    | none =>
      match fl.skippedFlushErr with
      | some m => ⟨shardID, stats, ⟨none, some ⟨flushFailInfo .skipped, m⟩⟩, ds⟩
      | none =>
        match fl.failedFlushErr with
        | some m => ⟨shardID, stats, ⟨none, some ⟨flushFailInfo .failed, m⟩⟩, ds⟩
        | none => ⟨shardID, stats, ⟨some keys, none⟩, ds⟩

/-! ## Shard fixer: claim theorems -/

/-- Adding an increment to one domain's entry adds it to the total. -/
theorem sumStats_dsAdd (ds : DomainStats) (dom : String) (d : FixStats) :
    sumStats (dsAdd ds dom d) = FixStats.add d (sumStats ds) := by
  induction ds with
  | nil => simp [sumStats, dsAdd, FixStats.add, FixStats.zero]
  | cons p rest ih =>
    by_cases h : p.1 = dom
    · simp only [sumStats, dsAdd, h, if_pos rfl, List.foldr]
      simp only [sumStats] at *
      simp [FixStats.add]
      omega
    · simp only [sumStats, dsAdd, if_neg h, List.foldr]
      simp only [sumStats] at ih
      rw [ih]
      simp [FixStats.add]
      omega

/-- The entity loop keeps the per-domain totals equal to the shard-level
statistics. -/
theorem fixLoop_sum (allow : String → Bool) :
    ∀ (steps : List IterStep) (stats : FixStats) (ds : DomainStats),
      sumStats ds = stats →
      sumStats (fixLoop allow steps stats ds).2.1 = (fixLoop allow steps stats ds).1 := by
  intro steps
  induction steps with
  | nil => intro stats ds h; simpa [fixLoop] using h
  | cons s rest ih =>
    intro stats ds h
    match s with
    | .iterErr m => simpa [fixLoop] using h
    | .entity e =>
      match hadd : e.addErr with
      | some m =>
        simp only [fixLoop, hadd]
        rw [sumStats_dsAdd, h]
        simp [FixStats.add]
        omega
      | none =>
        simp only [fixLoop, hadd]
        apply ih
        rw [sumStats_dsAdd, sumStats_dsAdd, h]
        simp [FixStats.add]
        omega

/-- Shard-level statistics are balanced when every counted entity landed
in a bucket. -/
def statsBalanced (s : FixStats) : Prop :=
  s.entitiesCount = s.fixedCount + s.skippedCount + s.failedCount

/-- The entity loop keeps the shard-level statistics balanced as long as
no control-flow failure occurred. -/
theorem fixLoop_balanced (allow : String → Bool) :
    ∀ (steps : List IterStep) (stats : FixStats) (ds : DomainStats),
      statsBalanced stats →
      (fixLoop allow steps stats ds).2.2 = none →
      statsBalanced (fixLoop allow steps stats ds).1 := by
  intro steps
  induction steps with
  | nil => intro stats ds h _; simpa [fixLoop] using h
  | cons s rest ih =>
    intro stats ds h hnone
    match s with
    | .iterErr m => simp [fixLoop] at hnone
    | .entity e =>
      match hadd : e.addErr with
      | some m => simp [fixLoop, hadd] at hnone
      | none =>
        simp only [fixLoop, hadd] at hnone ⊢
        refine ih _ _ ?_ hnone
        match e.fixResultType, hb : fixBucket allow e with
        | _, .fixed => simp [statsBalanced, FixStats.add, entityDelta, bucketDelta, hb] at h ⊢; omega
        | _, .skipped => simp [statsBalanced, FixStats.add, entityDelta, bucketDelta, hb] at h ⊢; omega
        | _, .failed => simp [statsBalanced, FixStats.add, entityDelta, bucketDelta, hb] at h ⊢; omega

/-- C7 as written fails when a control-flow failure interrupts an entity:
in the repository's skipped-writer-error test one entity is counted but
lands in no bucket, so `EntitiesCount = 1` while
`Fixed + Skipped + Failed = 0`. -/
theorem c7_interrupted_entity_counterexample :
    let report := fixShard 0 [.entity ⟨"test_domain", .skipped, some "skipped writer error"⟩]
      (fun _ => true) ⟨none, none, none⟩ ⟨"f", "s", "fl"⟩
    report.stats.entitiesCount = 1 ∧
      report.stats.fixedCount + report.stats.skippedCount + report.stats.failedCount = 0 ∧
      report.stats.entitiesCount ≠
        report.stats.fixedCount + report.stats.skippedCount + report.stats.failedCount := by
  refine ⟨by decide, by decide, by decide⟩

/-- C7 (amended): for any mix of iterator outputs on which `Fix` completes
without a control-flow failure, the shard-level statistics satisfy
`EntitiesCount = Fixed + Skipped + Failed`, and the per-domain statistics
sum componentwise to the shard-level totals. -/
theorem c7_fix_stats_balance (shardID : Nat) (steps : List IterStep)
    (allow : String → Bool) (fl : FlushBehavior) (keys : FixKeys)
    (h : (fixShard shardID steps allow fl keys).result.controlFlowFailure = none) :
    (fixShard shardID steps allow fl keys).stats.entitiesCount =
        (fixShard shardID steps allow fl keys).stats.fixedCount +
          (fixShard shardID steps allow fl keys).stats.skippedCount +
          (fixShard shardID steps allow fl keys).stats.failedCount ∧
      sumStats (fixShard shardID steps allow fl keys).domainStats =
        (fixShard shardID steps allow fl keys).stats := by
  have hbal := fixLoop_balanced allow steps FixStats.zero [] rfl
  have hsum := fixLoop_sum allow steps FixStats.zero [] rfl
  rcases hloop : fixLoop allow steps FixStats.zero [] with ⟨stats, ds, cff⟩
  rw [hloop] at hbal hsum
  match cff with
  | some c => simp [fixShard, hloop] at h
  | none =>
    match hfx : fl.fixedFlushErr with
    | some m => simp [fixShard, hloop, hfx] at h
    | none =>
      match hsk : fl.skippedFlushErr with
      | some m => simp [fixShard, hloop, hfx, hsk] at h
      | none =>
        match hfl : fl.failedFlushErr with
        | some m => simp [fixShard, hloop, hfx, hsk, hfl] at h
        | none =>
          simp only [fixShard, hloop, hfx, hsk, hfl]
          exact ⟨hbal rfl, hsum⟩

/-- Witness for the amended C7 on a concrete failure-free run with three
entities across two domains. -/
theorem c7_fix_stats_balance_witness :
    (fixShard 0
        [.entity ⟨"d1", .fixed, none⟩, .entity ⟨"d2", .skipped, none⟩,
          .entity ⟨"d1", .failed, none⟩]
        (fun _ => true) ⟨none, none, none⟩ ⟨"f", "s", "fl"⟩).result.controlFlowFailure = none ∧
      (fixShard 0
        [.entity ⟨"d1", .fixed, none⟩, .entity ⟨"d2", .skipped, none⟩,
          .entity ⟨"d1", .failed, none⟩]
        (fun _ => true) ⟨none, none, none⟩ ⟨"f", "s", "fl"⟩).stats.entitiesCount =
        (fixShard 0
        [.entity ⟨"d1", .fixed, none⟩, .entity ⟨"d2", .skipped, none⟩,
          .entity ⟨"d1", .failed, none⟩]
        (fun _ => true) ⟨none, none, none⟩ ⟨"f", "s", "fl"⟩).stats.fixedCount +
          (fixShard 0
        [.entity ⟨"d1", .fixed, none⟩, .entity ⟨"d2", .skipped, none⟩,
          .entity ⟨"d1", .failed, none⟩]
        (fun _ => true) ⟨none, none, none⟩ ⟨"f", "s", "fl"⟩).stats.skippedCount +
          (fixShard 0
        [.entity ⟨"d1", .fixed, none⟩, .entity ⟨"d2", .skipped, none⟩,
          .entity ⟨"d1", .failed, none⟩]
        (fun _ => true) ⟨none, none, none⟩ ⟨"f", "s", "fl"⟩).stats.failedCount ∧
      sumStats (fixShard 0
        [.entity ⟨"d1", .fixed, none⟩, .entity ⟨"d2", .skipped, none⟩,
          .entity ⟨"d1", .failed, none⟩]
        (fun _ => true) ⟨none, none, none⟩ ⟨"f", "s", "fl"⟩).domainStats =
        (fixShard 0
        [.entity ⟨"d1", .fixed, none⟩, .entity ⟨"d2", .skipped, none⟩,
          .entity ⟨"d1", .failed, none⟩]
        (fun _ => true) ⟨none, none, none⟩ ⟨"f", "s", "fl"⟩).stats := by
  have h := c7_fix_stats_balance 0
    [.entity ⟨"d1", .fixed, none⟩, .entity ⟨"d2", .skipped, none⟩,
      .entity ⟨"d1", .failed, none⟩]
    (fun _ => true) ⟨none, none, none⟩ ⟨"f", "s", "fl"⟩ (by decide)
  exact ⟨by decide, h.1, h.2⟩

/-- The entity loop over a concatenation runs the first part and, only if
it produced no control-flow failure, continues with the second. -/
theorem fixLoop_append (allow : String → Bool) :
    ∀ (xs ys : List IterStep) (stats : FixStats) (ds : DomainStats),
      fixLoop allow (xs ++ ys) stats ds =
        (match fixLoop allow xs stats ds with
         | (s, d, none) => fixLoop allow ys s d
         | (s, d, some c) => (s, d, some c)) := by
  intro xs
  induction xs with
  | nil => intro ys stats ds; simp [fixLoop]
  | cons x rest ih =>
    intro ys stats ds
    match x with
    | .iterErr m => simp [fixLoop]
    | .entity e =>
      match hadd : e.addErr with
      | some m => simp [fixLoop, hadd]
      | none =>
        simp only [List.cons_append, fixLoop, hadd]
        exact ih ys _ _

/-- A run of entities whose stream adds all succeed produces no
control-flow failure. -/
theorem fixLoop_clean (allow : String → Bool) :
    ∀ (es : List FixEntityIn) (stats : FixStats) (ds : DomainStats),
      (∀ e ∈ es, e.addErr = none) →
      (fixLoop allow (es.map IterStep.entity) stats ds).2.2 = none := by
  intro es
  induction es with
  | nil => intro stats ds _; simp [fixLoop]
  | cons e rest ih =>
    intro stats ds h
    have he : e.addErr = none := h e (List.mem_cons_self e rest)
    simp only [List.map_cons, fixLoop, he]
    exact ih _ _ (fun x hx => h x (List.mem_cons_of_mem e hx))

/-- C8: for every control-flow failure of `Fix` — an iterator read error,
a per-stream writer add error, or a per-stream flush error — the shard's
report is returned with the failure recorded (Info naming the failing step
and InfoDetails the underlying error text) and with the statistics
accumulated for entities processed before the failure left intact. -/
theorem c8_control_flow_failure_report (shardID : Nat) (allow : String → Bool)
    (fl : FlushBehavior) (keys : FixKeys) (pre : List FixEntityIn)
    (rest : List IterStep) (e : FixEntityIn) (m : String)
    (hpre : ∀ x ∈ pre, x.addErr = none) :
    (fixShard shardID (pre.map IterStep.entity ++ IterStep.iterErr m :: rest) allow fl keys =
        ⟨shardID, (fixLoop allow (pre.map IterStep.entity) FixStats.zero []).1,
          ⟨none, some ⟨iterFailInfo, m⟩⟩,
          (fixLoop allow (pre.map IterStep.entity) FixStats.zero []).2.1⟩) ∧
      (e.addErr = some m →
        fixShard shardID (pre.map IterStep.entity ++ IterStep.entity e :: rest) allow fl keys =
          ⟨shardID,
            FixStats.add (fixLoop allow (pre.map IterStep.entity) FixStats.zero []).1 entityDelta,
            ⟨none, some ⟨addFailInfo (fixBucket allow e), m⟩⟩,
            dsAdd (fixLoop allow (pre.map IterStep.entity) FixStats.zero []).2.1
              e.domainID entityDelta⟩) ∧
      (fixShard shardID (pre.map IterStep.entity) allow
          ⟨some m, fl.skippedFlushErr, fl.failedFlushErr⟩ keys =
        ⟨shardID, (fixLoop allow (pre.map IterStep.entity) FixStats.zero []).1,
          ⟨none, some ⟨flushFailInfo .fixed, m⟩⟩,
          (fixLoop allow (pre.map IterStep.entity) FixStats.zero []).2.1⟩) ∧
      (fixShard shardID (pre.map IterStep.entity) allow
          ⟨none, some m, fl.failedFlushErr⟩ keys =
        ⟨shardID, (fixLoop allow (pre.map IterStep.entity) FixStats.zero []).1,
          ⟨none, some ⟨flushFailInfo .skipped, m⟩⟩,
          (fixLoop allow (pre.map IterStep.entity) FixStats.zero []).2.1⟩) ∧
      (fixShard shardID (pre.map IterStep.entity) allow ⟨none, none, some m⟩ keys =
        ⟨shardID, (fixLoop allow (pre.map IterStep.entity) FixStats.zero []).1,
          ⟨none, some ⟨flushFailInfo .failed, m⟩⟩,
          (fixLoop allow (pre.map IterStep.entity) FixStats.zero []).2.1⟩) := by
  have hclean := fixLoop_clean allow pre FixStats.zero [] hpre
  rcases ha : fixLoop allow (pre.map IterStep.entity) FixStats.zero [] with ⟨s0, ds0, cff0⟩
  rw [ha] at hclean
  simp only at hclean
  subst hclean
  refine ⟨?_, ?_, ?_, ?_, ?_⟩
  · have happ : fixLoop allow (pre.map IterStep.entity ++ IterStep.iterErr m :: rest)
        FixStats.zero [] = (s0, ds0, some ⟨iterFailInfo, m⟩) := by
      rw [fixLoop_append allow _ _ _ _, ha]
      simp [fixLoop]
    simp [fixShard, happ]
  · intro hadd
    have happ : fixLoop allow (pre.map IterStep.entity ++ IterStep.entity e :: rest)
        FixStats.zero [] =
        (FixStats.add s0 entityDelta, dsAdd ds0 e.domainID entityDelta,
          some ⟨addFailInfo (fixBucket allow e), m⟩) := by
      rw [fixLoop_append allow _ _ _ _, ha]
      simp [fixLoop, hadd]
    simp [fixShard, happ]
  · simp [fixShard, ha]
  · simp [fixShard, ha]
  · simp [fixShard, ha]

/-- Witness for C8: after one cleanly fixed entity, an iterator error
yields the report with the failure recorded and the accumulated
statistics intact. -/
theorem c8_control_flow_failure_report_witness :
    fixShard 0
        ([FixEntityIn.mk "d" .fixed none].map IterStep.entity ++ IterStep.iterErr "boom" :: [])
        (fun _ => true) ⟨none, none, none⟩ ⟨"f", "s", "fl"⟩ =
      ⟨0,
        (fixLoop (fun _ => true) ([FixEntityIn.mk "d" .fixed none].map IterStep.entity)
          FixStats.zero []).1,
        ⟨none, some ⟨iterFailInfo, "boom"⟩⟩,
        (fixLoop (fun _ => true) ([FixEntityIn.mk "d" .fixed none].map IterStep.entity)
          FixStats.zero []).2.1⟩ :=
  (c8_control_flow_failure_report 0 (fun _ => true) ⟨none, none, none⟩ ⟨"f", "s", "fl"⟩
    [FixEntityIn.mk "d" .fixed none] [] ⟨"d2", .skipped, some "boom"⟩ "boom" (by decide)).1

/-! ## History scavenger -/

/-- One nanosecond-denominated hour, as in Go's `time.Hour`. -/
def hourNs : Int := 3600 * 1000000000

/-- Only clean up history branches older than this threshold: the maximum
workflow retention is doubled to avoid racing with the history archiver,
which deletes mutable state before uploading history
(`time.Hour * 24 * maxWorkflowRetentionInDays * 2`). -/
def getHistoryCleanupThreshold (maxWorkflowRetentionInDays : Int) : Int :=
  hourNs * 24 * maxWorkflowRetentionInDays * 2

/-- A history-tree branch as returned by `GetAllHistoryTreeBranches`:
its fork time and the parse result of its garbage-cleanup info
(`domainID`, `workflowID`, `runID`, or `none` when malformed). -/
structure BranchRecord where
  forkTime : Int
  cleanupInfo : Option (String × String × String)
deriving DecidableEq, Repr

/-- What the scavenger's page loop does with one branch: skip it as too
recent, count a parse error, or enqueue a cleanup task. -/
inductive BranchDecision where
  | skip
  | parseError
  | task (domainID workflowID runID : String)
deriving DecidableEq, Repr

/-- The per-branch decision of the scavenger's page loop: a branch whose
fork time is after `now` minus the cleanup threshold is skipped; otherwise
its cleanup info is parsed, and on success a task is enqueued. -/
def classifyBranch (now threshold : Int) (br : BranchRecord) : BranchDecision :=
  if now - threshold < br.forkTime then .skip
  else
    match br.cleanupInfo with
    | none => .parseError
    | some (d, w, r) => .task d w r

/-- Processing one page of branches: the number of skipped branches, the
number of info-parse errors, and the cleanup tasks sent to the task
channel, in order. -/
def processPage (now threshold : Int) :
    List BranchRecord → Nat × Nat × List (String × String × String)
  | [] => (0, 0, [])
  | br :: rest =>
    let (skips, errs, tasks) := processPage now threshold rest
    match classifyBranch now threshold br with
    | .skip => (skips + 1, errs, tasks)
    | .parseError => (skips, errs + 1, tasks)
    | .task d w r => (skips, errs, (d, w, r) :: tasks)

/-- Result of the `DescribeMutableState` lookup for a task. -/
inductive DescribeResult where
  | found
  | entityNotExists
  | otherErr (msg : String)
deriving DecidableEq, Repr

/-- Behaviour of the collaborators consulted while processing one cleanup
task: the rate limiter wait, the mutable-state lookup, branch-token
creation, domain-name lookup, and the branch deletion itself. -/
structure TaskEnv where
  limiterErr : Option String
  describe : DescribeResult
  tokenErr : Option String
  domainNameErr : Option String
  deleteErr : Option String
deriving DecidableEq, Repr

/-- Observable trace of processing one cleanup task: whether
`DescribeMutableState` was called, whether `DeleteHistoryBranch` was
called, and the response sent on the response channel (`none` = success). -/
structure TaskTrace where
  describeCalled : Bool
  deleteCalled : Bool
  response : Option String
deriving DecidableEq, Repr

/-- The scavenger's per-task processor: wait on the rate limiter, describe
the workflow's mutable state, and delete the history branch only when the
workflow no longer exists; a found workflow or a non-not-found error
leaves the branch alone. -/
def processTask (env : TaskEnv) : TaskTrace :=
  match env.limiterErr with
  | some m => ⟨false, false, some m⟩
  | none =>
    match env.describe with
    | .found => ⟨true, false, none⟩
    | .otherErr m => ⟨true, false, some m⟩
    | .entityNotExists =>
      match env.tokenErr with
      | some m => ⟨true, false, some m⟩
      | none =>
        match env.domainNameErr with
        | some m => ⟨true, false, some m⟩
        | none => ⟨true, true, env.deleteErr⟩

/-! ## Scavenger: claim theorem -/

/-- C9: a branch whose fork time is within the doubled-retention threshold
of `now` is skipped (counted, never enqueued, hence never deleted); the
remaining parseable branches become cleanup tasks, and a task deletes its
branch if and only if `DescribeMutableState` reports that the workflow no
longer exists (assuming the auxiliary limiter/token/domain-name steps
succeed). -/
theorem c9_scavenger_branch_handling (now days : Int) (branches : List BranchRecord)
    (env : TaskEnv)
    (hlim : env.limiterErr = none) (htok : env.tokenErr = none)
    (hdom : env.domainNameErr = none) :
    (processPage now (getHistoryCleanupThreshold days) branches).1 =
        (branches.filter
          (fun br => now - getHistoryCleanupThreshold days < br.forkTime)).length ∧
      (processPage now (getHistoryCleanupThreshold days) branches).2.2 =
        ((branches.filter
            (fun br => !(now - getHistoryCleanupThreshold days < br.forkTime : Bool))).filterMap
          (fun br => br.cleanupInfo)) ∧
      (processTask env).describeCalled = true ∧
      ((processTask env).deleteCalled = true ↔ env.describe = .entityNotExists) := by
  refine ⟨?_, ?_, ?_, ?_⟩
  · induction branches with
    | nil => rfl
    | cons br rest ih =>
      by_cases h : now - getHistoryCleanupThreshold days < br.forkTime
      · simp [processPage, classifyBranch, h, ih]
      · match hi : br.cleanupInfo with
        | none => simp [processPage, classifyBranch, h, hi, ih]
        | some (d, w, r) => simp [processPage, classifyBranch, h, hi, ih]
  · induction branches with
    | nil => rfl
    | cons br rest ih =>
      by_cases h : now - getHistoryCleanupThreshold days < br.forkTime
      · simp [processPage, classifyBranch, h, ih]
      · match hi : br.cleanupInfo with
        | none => simp [processPage, classifyBranch, h, hi, ih]
        | some (d, w, r) => simp [processPage, classifyBranch, h, hi, ih]
  · match hd : env.describe with
    | .found => simp [processTask, hlim, hd]
    | .otherErr m => simp [processTask, hlim, hd]
    | .entityNotExists => simp [processTask, hlim, htok, hdom, hd]
  · match hd : env.describe with
    | .found => simp [processTask, hlim, hd]
    | .otherErr m => simp [processTask, hlim, hd]
    | .entityNotExists => simp [processTask, hlim, htok, hdom, hd]

/-- Witness for C9: one recent branch (skipped), one old orphan branch
and one old malformed branch, with a workflow-not-found lookup that
triggers deletion. -/
theorem c9_scavenger_branch_handling_witness :
    (processPage (getHistoryCleanupThreshold 1 + 100) (getHistoryCleanupThreshold 1)
        [⟨150, some ("d", "w", "r")⟩, ⟨50, some ("d2", "w2", "r2")⟩, ⟨40, none⟩]).1 = 1 ∧
      (processPage (getHistoryCleanupThreshold 1 + 100) (getHistoryCleanupThreshold 1)
        [⟨150, some ("d", "w", "r")⟩, ⟨50, some ("d2", "w2", "r2")⟩, ⟨40, none⟩]).2.2 =
        [("d2", "w2", "r2")] ∧
      (processTask ⟨none, .entityNotExists, none, none, none⟩).describeCalled = true ∧
      ((processTask ⟨none, .entityNotExists, none, none, none⟩).deleteCalled = true ↔
        TaskEnv.describe ⟨none, .entityNotExists, none, none, none⟩ = .entityNotExists) := by
  have h := c9_scavenger_branch_handling (getHistoryCleanupThreshold 1 + 100) 1
    [⟨150, some ("d", "w", "r")⟩, ⟨50, some ("d2", "w2", "r2")⟩, ⟨40, none⟩]
    ⟨none, .entityNotExists, none, none, none⟩ rfl rfl rfl
  refine ⟨?_, ?_, h.2.2.1, h.2.2.2⟩
  · rw [h.1]; decide
  · rw [h.2.1]; decide

/-! ## Task-list DB -/

/-- Cached persistence view held by `taskListDB` (identity fields plus the
mutable cached state). -/
structure TaskListDB where
  domainID : String
  domainName : String
  taskListName : String
  taskListKind : Int
  taskType : Int
  rangeID : Int
  backlogCount : Int
  ackLevel : Int
  partitionConfig : Option Int
deriving DecidableEq, Repr

/-- The `TaskListInfo` payload of an `UpdateTaskList` request. -/
structure UpdateTaskListRequest where
  domainID : String
  name : String
  taskType : Int
  ackLevel : Int
  rangeID : Int
  kind : Int
  adaptivePartitionConfig : Option Int
deriving DecidableEq, Repr

/-- The request `UpdateState` sends to the store: the supplied ack level
together with the cached range id, kind and partition config. -/
def mkUpdateStateRequest (db : TaskListDB) (ackLevel : Int) : UpdateTaskListRequest :=
  { domainID := db.domainID, name := db.taskListName, taskType := db.taskType,
    ackLevel := ackLevel, rangeID := db.rangeID, kind := db.taskListKind,
    adaptivePartitionConfig := db.partitionConfig }

/-- `taskListDB.UpdateState`: issue a conditional `UpdateTaskList` against
the store; on error return it with the cached state untouched, on success
cache the new ack level.  The store is a function from the request to an
optional error. -/
def updateState (store : UpdateTaskListRequest → Option String) (db : TaskListDB)
    (ackLevel : Int) : Option String × TaskListDB :=
  match store (mkUpdateStateRequest db ackLevel) with
  | some e => (some e, db)
  | none => (none, { db with ackLevel := ackLevel })

/-- C10: if the store's `UpdateTaskList` fails, `UpdateState` returns that
error and leaves every cached field (ack level, range id, partition
config, and the rest) unchanged; if it succeeds, the cached ack level
becomes the supplied one and no other cached field changes. -/
theorem c10_update_state_cache (store : UpdateTaskListRequest → Option String)
    (db : TaskListDB) (ackLevel : Int) :
    (∀ e, store (mkUpdateStateRequest db ackLevel) = some e →
        updateState store db ackLevel = (some e, db)) ∧
      (store (mkUpdateStateRequest db ackLevel) = none →
        (updateState store db ackLevel).1 = none ∧
          (updateState store db ackLevel).2.ackLevel = ackLevel ∧
          (updateState store db ackLevel).2.rangeID = db.rangeID ∧
          (updateState store db ackLevel).2.partitionConfig = db.partitionConfig ∧
          (updateState store db ackLevel).2.domainID = db.domainID ∧
          (updateState store db ackLevel).2.domainName = db.domainName ∧
          (updateState store db ackLevel).2.taskListName = db.taskListName ∧
          (updateState store db ackLevel).2.taskListKind = db.taskListKind ∧
          (updateState store db ackLevel).2.taskType = db.taskType ∧
          (updateState store db ackLevel).2.backlogCount = db.backlogCount) := by
  constructor
  · intro e he
    simp [updateState, he]
  · intro hok
    simp [updateState, hok]

/-- Witness for C10 on a concrete store failing on even range ids and
succeeding otherwise. -/
theorem c10_update_state_cache_witness :
    (updateState (fun r => if r.rangeID % 2 = 0 then some "condition failed" else none)
        ⟨"dom", "name", "tl", 0, 1, 4, 7, 10, some 5⟩ 42 =
      (some "condition failed", ⟨"dom", "name", "tl", 0, 1, 4, 7, 10, some 5⟩)) ∧
      ((updateState (fun r => if r.rangeID % 2 = 0 then some "condition failed" else none)
        ⟨"dom", "name", "tl", 0, 1, 5, 7, 10, some 5⟩ 42).1 = none ∧
        (updateState (fun r => if r.rangeID % 2 = 0 then some "condition failed" else none)
        ⟨"dom", "name", "tl", 0, 1, 5, 7, 10, some 5⟩ 42).2.ackLevel = 42 ∧
        (updateState (fun r => if r.rangeID % 2 = 0 then some "condition failed" else none)
        ⟨"dom", "name", "tl", 0, 1, 5, 7, 10, some 5⟩ 42).2.rangeID = 5 ∧
        (updateState (fun r => if r.rangeID % 2 = 0 then some "condition failed" else none)
        ⟨"dom", "name", "tl", 0, 1, 5, 7, 10, some 5⟩ 42).2.partitionConfig = some 5) := by
  constructor
  · exact (c10_update_state_cache _ ⟨"dom", "name", "tl", 0, 1, 4, 7, 10, some 5⟩ 42).1
      "condition failed" (by decide)
  · have h := (c10_update_state_cache
      (fun r => if r.rangeID % 2 = 0 then some "condition failed" else none)
      ⟨"dom", "name", "tl", 0, 1, 5, 7, 10, some 5⟩ 42).2 (by decide)
    exact ⟨h.1, h.2.1, h.2.2.1, h.2.2.2.1⟩
